import Mathlib

/-!
Verification of the Waybar PulseAudio `AudioBackend` (util/audio_backend.cpp)
against its natural-language specification.

Shallow embedding conventions:
* PulseAudio machine integers (`pa_volume_t`, `uint32_t`) are `ℕ` with an
  explicit `% 2^32` where the C code can wrap; `uint16_t` parameters are `ℕ`
  (bounds are supplied as hypotheses where they matter).
* C `double`/`float` arithmetic is modelled exactly over `ℚ`; `std::round` on
  non-negative arguments is Mathlib's `round`, conversion of a non-negative
  floating value to an unsigned integer is `Int.floor` followed by `% 2^32`.
* The PulseAudio context handle is abstracted to a single `ready : Bool` flag
  (`context_ != nullptr && pa_context_get_state(context_) == PA_CONTEXT_READY`).
* Server interactions are not performed; each entry point returns the list of
  requests it submits (`PaRequest`), in submission order.
-/

namespace WaybarAudio

/-- `PA_VOLUME_NORM` from pulse/volume.h: the 100% volume in native units. -/
def PA_VOLUME_NORM : ℕ := 65536

/-- `PA_VOLUME_MAX` from pulse/volume.h: `UINT32_MAX / 2`. -/
def PA_VOLUME_MAX : ℕ := 2 ^ 31 - 1

/-- `PA_VOLUME_INVALID` from pulse/volume.h: `UINT32_MAX`. -/
def PA_VOLUME_INVALID : ℕ := 2 ^ 32 - 1

/-- `PA_CHANNELS_MAX` from pulse/sample.h. -/
def PA_CHANNELS_MAX : ℕ := 32

/-- `PA_VOLUME_UI_MAX = pa_sw_volume_from_dB(+11.0)` from pulse/volume.h,
evaluated: `lround(cbrt(10^(11/20)) * PA_VOLUME_NORM) = 99957`. -/
def PA_VOLUME_UI_MAX : ℕ := 99957

/-- The value `static_cast<uint16_t>(PA_VOLUME_UI_MAX)` used at the
`std::min` clamp in `changeVolume(ChangeType, double, uint16_t)`. -/
def PA_VOLUME_UI_MAX_U16 : ℕ := PA_VOLUME_UI_MAX % 2 ^ 16

/-- `pa_subscription_event_type_t` facility value for sinks. -/
def PA_SUBSCRIPTION_EVENT_SINK : ℕ := 0

/-- `pa_subscription_event_type_t` facility value for sources. -/
def PA_SUBSCRIPTION_EVENT_SOURCE : ℕ := 1

/-- `pa_subscription_event_type_t` facility value for sink inputs. -/
def PA_SUBSCRIPTION_EVENT_SINK_INPUT : ℕ := 2

/-- `pa_subscription_event_type_t` facility value for source outputs. -/
def PA_SUBSCRIPTION_EVENT_SOURCE_OUTPUT : ℕ := 3

/-- `pa_subscription_event_type_t` facility value for the server. -/
def PA_SUBSCRIPTION_EVENT_SERVER : ℕ := 7

/-- `PA_SUBSCRIPTION_EVENT_FACILITY_MASK = 0x000F`. -/
def PA_SUBSCRIPTION_EVENT_FACILITY_MASK : ℕ := 15

/-- `PA_SUBSCRIPTION_EVENT_CHANGE = 0x0010`. -/
def PA_SUBSCRIPTION_EVENT_CHANGE : ℕ := 16

/-- `PA_SUBSCRIPTION_EVENT_TYPE_MASK = 0x0030`. -/
def PA_SUBSCRIPTION_EVENT_TYPE_MASK : ℕ := 48

/-- The factor `static_cast<double>(PA_VOLUME_NORM) / 100` (`volume_tick`
in the source), modelled exactly as a rational. -/
def volumeTick : ℚ := (PA_VOLUME_NORM : ℚ) / 100

/-- Conversion of a non-negative C `double` to `pa_volume_t` (uint32_t) by
truncation, as in `pa_volume_t vol = volume * volume_tick;`. -/
def doubleToUint32Trunc (q : ℚ) : ℕ := (Int.floor q).toNat % 2 ^ 32

/-- `static_cast<pa_volume_t>(round(q))` for the `change` computations:
C `round` (half away from zero) agrees with Mathlib `round` on the
non-negative arguments that occur; the store into `pa_volume_t` wraps. -/
def doubleRoundToUint32 (q : ℚ) : ℕ := (round q).toNat % 2 ^ 32

/-- `pa_cvolume`: a channel count and the per-channel `pa_volume_t` values.
The C struct carries a fixed array of `PA_CHANNELS_MAX` entries; we model the
array as a total function on indices. -/
structure PaCvolume where
  channels : ℕ
  values : ℕ → ℕ

/-- `pa_cvolume_init`: zero channels, every slot `PA_VOLUME_INVALID`. -/
def paCvolumeInit : PaCvolume :=
  { channels := 0, values := fun _ => PA_VOLUME_INVALID }

/-- `pa_channels_valid(channels)`: non-zero and at most `PA_CHANNELS_MAX`. -/
def paChannelsValid (c : ℕ) : Prop := 0 < c ∧ c ≤ PA_CHANNELS_MAX

instance (c : ℕ) : Decidable (paChannelsValid c) := by
  unfold paChannelsValid; infer_instance

/-- `pa_cvolume_valid`: valid channel count and every used slot at most
`PA_VOLUME_MAX`. -/
def paCvolumeValid (v : PaCvolume) : Prop :=
  paChannelsValid v.channels ∧ ∀ i, i < v.channels → v.values i ≤ PA_VOLUME_MAX

instance (v : PaCvolume) : Decidable (paCvolumeValid v) := by
  unfold paCvolumeValid; infer_instance

/-- `pa_cvolume_avg`: 64-bit sum of the used slots divided by the channel
count (the sum of at most 32 values below `2^32` cannot overflow 64 bits, so
plain `ℕ` arithmetic is exact). -/
def paCvolumeAvg (v : PaCvolume) : ℕ :=
  ((Finset.range v.channels).sum v.values) / v.channels

/-- The percentage computation of `sinkInfoCb`:
`std::round(avg / float(PA_VOLUME_NORM) * 100.0F)`, real arithmetic modelled
over `ℚ`. -/
def sinkVolumePercent (v : PaCvolume) : ℕ :=
  (round ((paCvolumeAvg v : ℚ) / (PA_VOLUME_NORM : ℚ) * 100)).toNat

/-- `pa_sink_state_t` (the values the backend inspects). -/
inductive PaSinkState where
  | RUNNING
  | IDLE
  | SUSPENDED
  | INVALID_STATE
deriving DecidableEq

/-- The fields of `pa_sink_info` read by the backend.  `active_port` is
`none` for a null pointer; `form_factor` is the optional
`PA_PROP_DEVICE_FORM_FACTOR` proplist entry. -/
structure SinkInfo where
  name : String
  description : String
  state : PaSinkState
  volume : PaCvolume
  mute : Int
  index : ℕ
  active_port : Option String
  monitor_source_name : String
  form_factor : Option String

/-- The fields of `pa_server_info` read by the backend. -/
structure ServerInfo where
  default_sink_name : String
  default_source_name : String

/-- `ChangeType` from util/audio_backend.hpp. -/
inductive ChangeType where
  | Increase
  | Decrease
deriving DecidableEq

/-- A request submitted to the PulseAudio server. -/
inductive PaRequest where
  | getServerInfo
  | getSinkInfoByIndex (idx : ℕ)
  | getSinkInfoList
  | getSourceInfoByIndex (idx : ℕ)
  | getSourceInfoList
  | setSinkVolumeByIndex (idx : ℕ) (v : PaCvolume)
  | setSinkMuteByIndex (idx : ℕ) (mute : Bool)
  | setSourceMuteByIndex (idx : ℕ) (mute : Bool)

/-- The mutable fields of `AudioBackend`, plus `ready` abstracting
`context_ != nullptr && pa_context_get_state(context_) == PA_CONTEXT_READY`,
and the immutable `ignored_sinks_` configuration. -/
structure AudioBackend where
  ready : Bool
  default_sink_name : String
  current_sink_name_ : String
  current_sink_running_ : Bool
  default_sink_running_ : Bool
  pa_volume_ : PaCvolume
  volume_ : ℕ
  sink_idx_ : ℕ
  muted_ : Bool
  desc_ : String
  monitor_ : String
  port_name_ : String
  form_factor_ : String
  default_source_name_ : String
  source_volume_ : ℕ
  source_idx_ : ℕ
  source_muted_ : Bool
  source_desc_ : String
  source_port_name_ : String
  ignored_sinks_ : List String

/-- `AudioBackend::subscribeCb`: decode facility/operation from the event
type word and return the follow-up query, if any.  The state is untouched. -/
def subscribeCb (t idx : ℕ) : List PaRequest :=
  let facility := t &&& PA_SUBSCRIPTION_EVENT_FACILITY_MASK
  let operation := t &&& PA_SUBSCRIPTION_EVENT_TYPE_MASK
  if operation ≠ PA_SUBSCRIPTION_EVENT_CHANGE then []
  else if facility = PA_SUBSCRIPTION_EVENT_SERVER then [PaRequest.getServerInfo]
  else if facility = PA_SUBSCRIPTION_EVENT_SINK then [PaRequest.getSinkInfoByIndex idx]
  else if facility = PA_SUBSCRIPTION_EVENT_SINK_INPUT then [PaRequest.getSinkInfoList]
  else if facility = PA_SUBSCRIPTION_EVENT_SOURCE then [PaRequest.getSourceInfoByIndex idx]
  else if facility = PA_SUBSCRIPTION_EVENT_SOURCE_OUTPUT then [PaRequest.getSourceInfoList]
  else []

/-- `AudioBackend::volumeModifyCb`: on success (non-zero) and a still-ready
context, re-fetch the affected sink by its stored index; on failure only a
debug diagnostic is logged.  No field is written. -/
def volumeModifyCb (success : Int) (s : AudioBackend) : AudioBackend × List PaRequest :=
  if success ≠ 0 then
    if s.ready then (s, [PaRequest.getSinkInfoByIndex s.sink_idx_]) else (s, [])
  else (s, [])

/-- `AudioBackend::serverInfoCb`: record the default sink/source names, make
the default sink current, then query both full info lists. -/
def serverInfoCb (i : ServerInfo) (s : AudioBackend) : AudioBackend × List PaRequest :=
  let s := { s with
    current_sink_name_ := i.default_sink_name
    default_sink_name := i.default_sink_name
    default_source_name_ := i.default_source_name }
  (s, [PaRequest.getSinkInfoList, PaRequest.getSourceInfoList])

/-- `AudioBackend::sinkInfoCb` for a non-null `pa_sink_info`.  Returns the
new state and whether `on_updated_cb_` fired. -/
def sinkInfoCb (i : SinkInfo) (s : AudioBackend) : AudioBackend × Bool :=
  if i.description ∈ s.ignored_sinks_ then
    if i.name = s.current_sink_name_ then
      ({ s with current_sink_running_ := false }, false)
    else (s, false)
  else
    let runningOrIdle := i.state = PaSinkState.RUNNING ∨ i.state = PaSinkState.IDLE
    let s1 := { s with
      default_sink_running_ := decide (s.default_sink_name = i.name ∧ runningOrIdle) }
    if i.name ≠ s1.default_sink_name ∧ s1.default_sink_running_ = false then (s1, false)
    else
      let s2 :=
        if s1.current_sink_name_ = i.name then
          { s1 with current_sink_running_ := decide runningOrIdle }
        else s1
      let s3 :=
        if s2.current_sink_running_ = false ∧ runningOrIdle then
          { s2 with current_sink_name_ := i.name, current_sink_running_ := true }
        else s2
      if s3.current_sink_name_ = i.name then
        let s4 :=
          if paCvolumeValid i.volume then
            { s3 with
              pa_volume_ := i.volume
              sink_idx_ := i.index
              volume_ := sinkVolumePercent i.volume }
          else
            { s3 with pa_volume_ := paCvolumeInit, volume_ := 0 }
        ({ s4 with
            muted_ := decide (i.mute ≠ 0)
            desc_ := i.description
            monitor_ := i.monitor_source_name
            port_name_ := i.active_port.getD "Unknown"
            form_factor_ := i.form_factor.getD "" }, true)
      else (s3, false)

/-- `std::clamp(v, lo, hi)`. -/
def stdClamp (v lo hi : ℕ) : ℕ := if v < lo then lo else if hi < v then hi else v

/-- The per-channel loop of the absolute set: every used slot is assigned
the identical value `vol`; unused array slots keep their contents. -/
def absUniform (vol : ℕ) (pv : PaCvolume) : PaCvolume :=
  { pv with values := fun i => if i < pv.channels then vol else pv.values i }

/-- `AudioBackend::changeVolume(uint16_t volume, uint16_t min_volume,
uint16_t max_volume)`: the absolute volume set.  If not ready, an error is
logged and nothing is submitted.  The working structure is the last-known
`pa_volume_` when valid, else a freshly initialised stereo default; the
target is clamped, converted to native units once, and assigned to every
channel. -/
def changeVolumeAbs (volume min_volume max_volume : ℕ) (s : AudioBackend) :
    AudioBackend × List PaRequest :=
  if s.ready = false then (s, [])
  else
    (s, [PaRequest.setSinkVolumeByIndex s.sink_idx_
      (absUniform
        (doubleToUint32Trunc ((stdClamp volume min_volume max_volume : ℚ) * volumeTick))
        (if paCvolumeValid s.pa_volume_ ∧ paChannelsValid s.pa_volume_.channels then
          s.pa_volume_
        else { paCvolumeInit with channels := 2 }))])

/-- The `change` computation of the Increase arm (native units). -/
def relIncreaseChange (step : ℚ) (maxv vol : ℕ) : ℕ :=
  if (vol : ℚ) + step > (maxv : ℚ) then
    doubleRoundToUint32 (((maxv - vol : ℕ) : ℚ) * volumeTick)
  else doubleRoundToUint32 (step * volumeTick)

/-- The per-channel loop of the Increase arm:
`values[i] = std::min(values[i] + change, PA_VOLUME_MAX)` (uint32 addition). -/
def relIncrease (step : ℚ) (maxv vol : ℕ) (pv : PaCvolume) : PaCvolume :=
  { pv with
      values := fun i =>
        if i < pv.channels then
          min ((pv.values i + relIncreaseChange step maxv vol) % 2 ^ 32) PA_VOLUME_MAX
        else pv.values i }

/-- The `change` computation of the Decrease arm (native units). -/
def relDecreaseChange (step : ℚ) (vol : ℕ) : ℕ :=
  if (vol : ℚ) - step < 0 then doubleRoundToUint32 ((vol : ℚ) * volumeTick)
  else doubleRoundToUint32 (step * volumeTick)

/-- The per-channel loop of the Decrease arm:
`values[i] = (values[i] > change) ? (values[i] - change) : 0`. -/
def relDecrease (step : ℚ) (vol : ℕ) (pv : PaCvolume) : PaCvolume :=
  { pv with
      values := fun i =>
        if i < pv.channels then
          if relDecreaseChange step vol < pv.values i then
            pv.values i - relDecreaseChange step vol
          else 0
        else pv.values i }

/-- The bootstrap structure of the relative step: a freshly initialised
structure set to stereo, both used slots at the native conversion of the
current known percentage. -/
def relBootstrap (vol : ℕ) : PaCvolume :=
  { channels := 2
    values := fun i =>
      if i < 2 then doubleToUint32Trunc ((vol : ℚ) * volumeTick) else PA_VOLUME_INVALID }

/-- `AudioBackend::changeVolume(ChangeType change_type, double step,
uint16_t max_volume)`: the relative step.  With a valid last-known
structure, `max_volume` is first clamped by
`std::min(max_volume, (uint16_t)PA_VOLUME_UI_MAX)` and the guarded
Increase/Decrease arms run; at the boundary nothing is submitted.  With an
invalid structure the stereo bootstrap is submitted unconditionally. -/
def changeVolumeRel (change_type : ChangeType) (step : ℚ) (max_volume : ℕ)
    (s : AudioBackend) : AudioBackend × List PaRequest :=
  if s.ready = false then (s, [])
  else if paCvolumeValid s.pa_volume_ ∧ paChannelsValid s.pa_volume_.channels then
    if change_type = ChangeType.Increase ∧
        s.volume_ < min max_volume PA_VOLUME_UI_MAX_U16 then
      (s, [PaRequest.setSinkVolumeByIndex s.sink_idx_
        (relIncrease step (min max_volume PA_VOLUME_UI_MAX_U16) s.volume_ s.pa_volume_)])
    else if change_type = ChangeType.Decrease ∧ 0 < s.volume_ then
      (s, [PaRequest.setSinkVolumeByIndex s.sink_idx_
        (relDecrease step s.volume_ s.pa_volume_)])
    else (s, [])
  else (s, [PaRequest.setSinkVolumeByIndex s.sink_idx_ (relBootstrap s.volume_)])

/-- `AudioBackend::toggleSinkMute()` (flip form): no readiness check. -/
def toggleSinkMute (s : AudioBackend) : AudioBackend × List PaRequest :=
  let s := { s with muted_ := !s.muted_ }
  (s, [PaRequest.setSinkMuteByIndex s.sink_idx_ s.muted_])

/-- `AudioBackend::toggleSinkMute(bool mute)` (absolute form). -/
def toggleSinkMuteSet (mute : Bool) (s : AudioBackend) : AudioBackend × List PaRequest :=
  let s := { s with muted_ := mute }
  (s, [PaRequest.setSinkMuteByIndex s.sink_idx_ s.muted_])

/-- `AudioBackend::toggleSourceMute()` (flip form).  Note the source reads
`!muted_`, the output flag, not `!source_muted_`. -/
def toggleSourceMute (s : AudioBackend) : AudioBackend × List PaRequest :=
  let s := { s with source_muted_ := !s.muted_ }
  (s, [PaRequest.setSourceMuteByIndex s.source_idx_ s.source_muted_])

/-- `AudioBackend::toggleSourceMute(bool mute)` (absolute form). -/
def toggleSourceMuteSet (mute : Bool) (s : AudioBackend) : AudioBackend × List PaRequest :=
  let s := { s with source_muted_ := mute }
  (s, [PaRequest.setSourceMuteByIndex s.source_idx_ s.source_muted_])

/-- A ready backend state used to instantiate theorems with hypotheses. -/
def readyState : AudioBackend :=
  { ready := true
    default_sink_name := "alsa_output.pci"
    current_sink_name_ := "alsa_output.pci"
    current_sink_running_ := true
    default_sink_running_ := true
    pa_volume_ := { channels := 2, values := fun _ => 32768 }
    volume_ := 50
    sink_idx_ := 1
    muted_ := false
    desc_ := "Built-in Audio"
    monitor_ := "alsa_output.pci.monitor"
    port_name_ := "analog-output"
    form_factor_ := "internal"
    default_source_name_ := "alsa_input.pci"
    source_volume_ := 40
    source_idx_ := 2
    source_muted_ := false
    source_desc_ := "Built-in Microphone"
    source_port_name_ := "analog-input"
    ignored_sinks_ := [] }

/-- `readyState` with the connection not ready. -/
def notReadyState : AudioBackend := { readyState with ready := false }

/-- `readyState` with an invalid last-known channel-volume structure. -/
def invalidVolState : AudioBackend := { readyState with pa_volume_ := paCvolumeInit }

/-- `readyState` with diverging output/input mute flags. -/
def crossMuteState : AudioBackend := { readyState with muted_ := true }

/-- A state whose ignore list contains the description of `ignoredSink`. -/
def ignoreListState : AudioBackend :=
  { readyState with ignored_sinks_ := ["Monitor of Built-in Audio"] }

/-- A sink descriptor whose description is on `ignoreListState`'s list and
whose name equals the presently-current sink. -/
def ignoredSink : SinkInfo :=
  { name := "alsa_output.pci"
    description := "Monitor of Built-in Audio"
    state := PaSinkState.RUNNING
    volume := { channels := 2, values := fun _ => 4000 }
    mute := 0
    index := 3
    active_port := some "analog-output"
    monitor_source_name := "mon"
    form_factor := none }

/-- C10: every `ServerInfo` delivery unconditionally overwrites the current
output-device name with the newly reported default output name, also updates
the stored default output and input names, changes nothing else, and only
afterwards issues the sink-list and source-list re-fetches. -/
theorem serverInfoCb_overwrites (i : ServerInfo) (s : AudioBackend) :
    (serverInfoCb i s).1.current_sink_name_ = i.default_sink_name ∧
    serverInfoCb i s =
      ({ s with
          current_sink_name_ := i.default_sink_name
          default_sink_name := i.default_sink_name
          default_source_name_ := i.default_source_name },
        [PaRequest.getSinkInfoList, PaRequest.getSourceInfoList]) :=
  ⟨rfl, rfl⟩

/-- C5 counterexample: with output mute on and input mute off, the flip form
of the input mute toggle does not set the input flag to the negation of its
own previous value (the source sets it to the negation of the output flag). -/
theorem toggleSourceMute_flip_cex :
    (toggleSourceMute crossMuteState).1.source_muted_ ≠ !crossMuteState.source_muted_ := by
  decide

/-- C5 amended: the flip form of the input mute toggle sets the local input
mute flag to the logical negation of the previous value of the OUTPUT mute
flag, submits the corresponding request for the input device with that value,
and leaves every other field (the output mute flag included) unchanged. -/
theorem toggleSourceMute_flip_amended (s : AudioBackend) :
    toggleSourceMute s =
      ({ s with source_muted_ := !s.muted_ },
        [PaRequest.setSourceMuteByIndex s.source_idx_ (!s.muted_)]) :=
  rfl

/-- C8: on completion of a volume-change request, the callback never writes
any field; on success (non-zero) with the connection still ready it re-fetches
the affected sink's full info by the stored index, and otherwise (success with
a lost connection, or failure, where only a diagnostic is logged) it submits
nothing — in particular no retry and no second submission. -/
theorem volumeModifyCb_spec (success : Int) (s : AudioBackend) :
    (volumeModifyCb success s).1 = s ∧
    (success ≠ 0 → s.ready = true →
      (volumeModifyCb success s).2 = [PaRequest.getSinkInfoByIndex s.sink_idx_]) ∧
    (success ≠ 0 → s.ready = false → (volumeModifyCb success s).2 = []) ∧
    (success = 0 → (volumeModifyCb success s).2 = []) := by
  unfold volumeModifyCb
  by_cases hs : success = 0 <;> by_cases hr : s.ready <;> simp [hs, hr]

/-- C8 witness: a successful completion on the ready sample state re-fetches
sink info at the stored index. -/
theorem volumeModifyCb_spec_w :
    (volumeModifyCb 1 readyState).2 = [PaRequest.getSinkInfoByIndex readyState.sink_idx_] :=
  (volumeModifyCb_spec 1 readyState).2.1 (by decide) rfl

/-- C9: subscription events whose operation is not a change are discarded
with no follow-up query; a server change triggers a ServerInfo re-fetch, a
sink change a fetch of that sink by the event index, a sink-input change a
fetch of the full sink list, a source change a fetch by index, and a
source-output change a fetch of the full source list. -/
theorem subscribeCb_dispatch (t idx : ℕ) :
    (t &&& PA_SUBSCRIPTION_EVENT_TYPE_MASK ≠ PA_SUBSCRIPTION_EVENT_CHANGE →
      subscribeCb t idx = []) ∧
    (t &&& PA_SUBSCRIPTION_EVENT_TYPE_MASK = PA_SUBSCRIPTION_EVENT_CHANGE →
      (t &&& PA_SUBSCRIPTION_EVENT_FACILITY_MASK = PA_SUBSCRIPTION_EVENT_SERVER →
        subscribeCb t idx = [PaRequest.getServerInfo]) ∧
      (t &&& PA_SUBSCRIPTION_EVENT_FACILITY_MASK = PA_SUBSCRIPTION_EVENT_SINK →
        subscribeCb t idx = [PaRequest.getSinkInfoByIndex idx]) ∧
      (t &&& PA_SUBSCRIPTION_EVENT_FACILITY_MASK = PA_SUBSCRIPTION_EVENT_SINK_INPUT →
        subscribeCb t idx = [PaRequest.getSinkInfoList]) ∧
      (t &&& PA_SUBSCRIPTION_EVENT_FACILITY_MASK = PA_SUBSCRIPTION_EVENT_SOURCE →
        subscribeCb t idx = [PaRequest.getSourceInfoByIndex idx]) ∧
      (t &&& PA_SUBSCRIPTION_EVENT_FACILITY_MASK = PA_SUBSCRIPTION_EVENT_SOURCE_OUTPUT →
        subscribeCb t idx = [PaRequest.getSourceInfoList])) := by
  unfold subscribeCb
  constructor
  · intro h; simp [h]
  · intro h
    refine ⟨fun hf => ?_, fun hf => ?_, fun hf => ?_, fun hf => ?_, fun hf => ?_⟩ <;>
      simp [h, hf, PA_SUBSCRIPTION_EVENT_SERVER, PA_SUBSCRIPTION_EVENT_SINK,
        PA_SUBSCRIPTION_EVENT_SINK_INPUT, PA_SUBSCRIPTION_EVENT_SOURCE,
        PA_SUBSCRIPTION_EVENT_SOURCE_OUTPUT]

/-- C9 witness: a server change event (type word `0x17`) triggers exactly a
ServerInfo re-fetch. -/
theorem subscribeCb_dispatch_w : subscribeCb 23 5 = [PaRequest.getServerInfo] :=
  ((subscribeCb_dispatch 23 5).2 (by decide)).1 (by decide)

/-- C1: a sink descriptor whose description is on the ignore list is never
adopted as the current sink: the current sink name is unchanged, the only
possible write is `current_sink_running_ := false` exactly when the
descriptor's name equals the presently-current sink's name, every other field
is untouched, and no update notification fires — regardless of the
descriptor's running state or of it being the server default. -/
theorem sinkInfoCb_ignored_never_adopted (i : SinkInfo) (s : AudioBackend)
    (hig : i.description ∈ s.ignored_sinks_) :
    (sinkInfoCb i s).1.current_sink_name_ = s.current_sink_name_ ∧
    (sinkInfoCb i s).1 =
      { s with current_sink_running_ :=
          if i.name = s.current_sink_name_ then false else s.current_sink_running_ } ∧
    (sinkInfoCb i s).2 = false := by
  unfold sinkInfoCb
  rw [if_pos hig]
  by_cases hn : i.name = s.current_sink_name_
  · simp [hn]
  · simp [hn]

/-- C1 witness: the ignored monitor sink, even while sharing the current
sink's name and Running, leaves the current sink name unchanged. -/
theorem sinkInfoCb_ignored_never_adopted_w :
    (sinkInfoCb ignoredSink ignoreListState).1.current_sink_name_ =
      ignoreListState.current_sink_name_ :=
  (sinkInfoCb_ignored_never_adopted ignoredSink ignoreListState (by decide)).1

/-- C7: when the last-known channel-volume structure is invalid, the relative
step bootstraps: it submits, for any direction, step size and max, a
two-channel structure whose two used slots both hold the native conversion of
the current known percentage, and changes no local field. -/
theorem changeVolumeRel_bootstrap (change_type : ChangeType) (step : ℚ)
    (max_volume : ℕ) (s : AudioBackend) (hr : s.ready = true)
    (hv : ¬(paCvolumeValid s.pa_volume_ ∧ paChannelsValid s.pa_volume_.channels)) :
    (changeVolumeRel change_type step max_volume s).1 = s ∧
    ∃ cv, (changeVolumeRel change_type step max_volume s).2 =
        [PaRequest.setSinkVolumeByIndex s.sink_idx_ cv] ∧
      cv.channels = 2 ∧
      ∀ i, i < 2 → cv.values i = doubleToUint32Trunc ((s.volume_ : ℚ) * volumeTick) := by
  unfold changeVolumeRel
  rw [if_neg (by simp [hr]), if_neg hv]
  refine ⟨rfl, ⟨_, rfl, rfl, ?_⟩⟩
  intro i hi
  simp [relBootstrap, hi]

/-- C7 witness: from an invalid structure, a Decrease at volume 50 with the
max at 100 still submits the two-channel bootstrap structure. -/
theorem changeVolumeRel_bootstrap_w :
    (changeVolumeRel ChangeType.Decrease 5 100 invalidVolState).1 = invalidVolState :=
  (changeVolumeRel_bootstrap ChangeType.Decrease 5 100 invalidVolState rfl (by decide)).1

/-- C4 counterexample: with the connection not ready, the output mute toggle
still flips the local mute flag and still submits a server request, refuting
that every mutation entry point is a local no-op when not ready. -/
theorem mutation_not_ready_cex :
    notReadyState.ready = false ∧
    (toggleSinkMute notReadyState).1.muted_ ≠ notReadyState.muted_ ∧
    (toggleSinkMute notReadyState).2 ≠ [] := by
  refine ⟨rfl, by decide, ?_⟩
  intro h
  exact List.noConfusion h

/-- C4 amended: while the connection is not ready, the absolute volume set
and the relative step are local no-ops with a diagnostic — no request
submitted, no field changed — but the mute toggles perform no readiness
check: they update the local mute flag and submit the corresponding request
regardless. -/
theorem mutation_not_ready_amended (s : AudioBackend) (h : s.ready = false)
    (volume min_volume max_volume : ℕ) (change_type : ChangeType) (step : ℚ)
    (maxv : ℕ) (mute : Bool) :
    changeVolumeAbs volume min_volume max_volume s = (s, []) ∧
    changeVolumeRel change_type step maxv s = (s, []) ∧
    toggleSinkMute s =
      ({ s with muted_ := !s.muted_ },
        [PaRequest.setSinkMuteByIndex s.sink_idx_ (!s.muted_)]) ∧
    toggleSinkMuteSet mute s =
      ({ s with muted_ := mute }, [PaRequest.setSinkMuteByIndex s.sink_idx_ mute]) ∧
    toggleSourceMute s =
      ({ s with source_muted_ := !s.muted_ },
        [PaRequest.setSourceMuteByIndex s.source_idx_ (!s.muted_)]) ∧
    toggleSourceMuteSet mute s =
      ({ s with source_muted_ := mute },
        [PaRequest.setSourceMuteByIndex s.source_idx_ mute]) := by
  refine ⟨?_, ?_, rfl, rfl, rfl, rfl⟩
  · unfold changeVolumeAbs; rw [if_pos h]
  · unfold changeVolumeRel; rw [if_pos h]

/-- C4 witness: on the not-ready sample state, the absolute volume set is a
no-op. -/
theorem mutation_not_ready_amended_w :
    changeVolumeAbs 30 0 100 notReadyState = (notReadyState, []) :=
  (mutation_not_ready_amended notReadyState rfl 30 0 100 ChangeType.Increase 5 100
      false).1

lemma stdClamp_bounds (v lo hi : ℕ) (h : lo ≤ hi) :
    lo ≤ stdClamp v lo hi ∧ stdClamp v lo hi ≤ hi := by
  unfold stdClamp; split_ifs <;> omega

lemma stdClamp_le_bound (v lo hi M : ℕ) (hv : v ≤ M) (hlo : lo ≤ M) (hhi : hi ≤ M) :
    stdClamp v lo hi ≤ M := by
  unfold stdClamp; split_ifs <;> omega

lemma absUniform_values (vol : ℕ) (pv : PaCvolume) (i : ℕ) (hi : i < pv.channels) :
    (absUniform vol pv).values i = vol := by
  simp [absUniform, hi]

lemma changeVolumeAbs_submits (volume min_volume max_volume : ℕ) (s : AudioBackend)
    (hr : s.ready = true) :
    ∃ pv, changeVolumeAbs volume min_volume max_volume s =
        (s, [PaRequest.setSinkVolumeByIndex s.sink_idx_
          (absUniform (doubleToUint32Trunc
            ((stdClamp volume min_volume max_volume : ℚ) * volumeTick)) pv)]) ∧
      0 < pv.channels := by
  unfold changeVolumeAbs
  rw [if_neg (by simp [hr])]
  by_cases hv : paCvolumeValid s.pa_volume_ ∧ paChannelsValid s.pa_volume_.channels
  · rw [if_pos hv]; exact ⟨s.pa_volume_, rfl, hv.2.1⟩
  · rw [if_neg hv]; exact ⟨{ paCvolumeInit with channels := 2 }, rfl, by norm_num⟩

/-- C3: with the connection ready, the absolute volume set submits one
request whose channel-volume structure assigns to every used channel the
identical native conversion of the clamped target — whatever the channel
count of the structure used. -/
theorem changeVolumeAbs_uniform (volume min_volume max_volume : ℕ) (s : AudioBackend)
    (hr : s.ready = true) :
    ∃ cv, (changeVolumeAbs volume min_volume max_volume s).2 =
        [PaRequest.setSinkVolumeByIndex s.sink_idx_ cv] ∧
      0 < cv.channels ∧
      ∀ i, i < cv.channels →
        cv.values i = doubleToUint32Trunc
          ((stdClamp volume min_volume max_volume : ℚ) * volumeTick) := by
  obtain ⟨pv, heq, hpos⟩ := changeVolumeAbs_submits volume min_volume max_volume s hr
  refine ⟨absUniform (doubleToUint32Trunc
      ((stdClamp volume min_volume max_volume : ℚ) * volumeTick)) pv, by rw [heq],
    hpos, ?_⟩
  intro i hi
  exact absUniform_values _ _ _ hi

/-- C3 witness: a concrete absolute set on the ready sample state. -/
theorem changeVolumeAbs_uniform_w :
    ∃ cv, (changeVolumeAbs 30 0 100 readyState).2 =
        [PaRequest.setSinkVolumeByIndex readyState.sink_idx_ cv] ∧
      0 < cv.channels ∧
      ∀ i, i < cv.channels →
        cv.values i = doubleToUint32Trunc ((stdClamp 30 0 100 : ℚ) * volumeTick) :=
  changeVolumeAbs_uniform 30 0 100 readyState rfl

lemma doubleToUint32Trunc_conv (c : ℕ) (hc : c ≤ 65535) :
    doubleToUint32Trunc ((c : ℚ) * volumeTick) = c * 65536 / 100 := by
  have hq : (c : ℚ) * volumeTick = ((c * 65536 : ℕ) : ℚ) / 100 := by
    unfold volumeTick PA_VOLUME_NORM
    push_cast
    ring
  have hfloor : Int.floor (((c * 65536 : ℕ) : ℚ) / 100) = ((c * 65536 / 100 : ℕ) : ℤ) := by
    rw [Int.floor_eq_iff, Int.cast_natCast]
    constructor
    · rw [le_div_iff₀ (by norm_num : (0 : ℚ) < 100)]
      have h1 : c * 65536 / 100 * 100 ≤ c * 65536 := by omega
      exact_mod_cast h1
    · rw [div_lt_iff₀ (by norm_num : (0 : ℚ) < 100)]
      have h2 : c * 65536 < (c * 65536 / 100 + 1) * 100 := by omega
      exact_mod_cast h2
  unfold doubleToUint32Trunc
  rw [hq, hfloor, Int.toNat_natCast]
  have hle : c * 65536 / 100 ≤ 65535 * 65536 / 100 :=
    Nat.div_le_div_right (Nat.mul_le_mul_right _ hc)
  exact Nat.mod_eq_of_lt (lt_of_le_of_lt hle (by norm_num))

lemma paCvolumeAvg_uniform (cv : PaCvolume) (vol : ℕ) (hn : 0 < cv.channels)
    (hvals : ∀ i, i < cv.channels → cv.values i = vol) :
    paCvolumeAvg cv = vol := by
  unfold paCvolumeAvg
  have hsum : (Finset.range cv.channels).sum cv.values = cv.channels * vol := by
    rw [Finset.sum_congr rfl fun i hi => hvals i (Finset.mem_range.mp hi)]
    simp [mul_comm]
  rw [hsum, Nat.mul_div_cancel_left _ hn]

lemma round_percent_recover (c vol : ℕ) (h1 : 100 * vol ≤ c * 65536)
    (h2 : c * 65536 < 100 * vol + 100) :
    (round ((vol : ℚ) / 65536 * 100)).toNat = c := by
  have h1Q : 100 * (vol : ℚ) ≤ (c : ℚ) * 65536 := by exact_mod_cast h1
  have h2Q : (c : ℚ) * 65536 < 100 * (vol : ℚ) + 100 := by exact_mod_cast h2
  have hrc : round ((vol : ℚ) / 65536 * 100) = (c : ℤ) := by
    rw [round_eq, Int.floor_eq_iff]
    push_cast
    constructor
    · linarith
    · linarith
  rw [hrc, Int.toNat_natCast]

lemma sinkVolumePercent_uniform_conv (cv : PaCvolume) (c : ℕ) (hc : c ≤ 65535)
    (hn : 0 < cv.channels)
    (hvals : ∀ i, i < cv.channels →
      cv.values i = doubleToUint32Trunc ((c : ℚ) * volumeTick)) :
    sinkVolumePercent cv = c := by
  have hconv := doubleToUint32Trunc_conv c hc
  have havg : paCvolumeAvg cv = c * 65536 / 100 :=
    paCvolumeAvg_uniform cv _ hn fun i hi => by rw [hvals i hi, hconv]
  have hdm := Nat.div_add_mod (c * 65536) 100
  have hm : c * 65536 % 100 < 100 := Nat.mod_lt _ (by norm_num)
  unfold sinkVolumePercent
  rw [havg]
  have hN : ((PA_VOLUME_NORM : ℕ) : ℚ) = 65536 := by norm_num [PA_VOLUME_NORM]
  rw [hN]
  exact round_percent_recover c _ (by omega) (by omega)

/-- C6: for every valid uint16 triple (target, min, max) with min ≤ max and
the connection ready, feeding the channel-volume structure submitted by the
absolute set back through the percentage computation of `sinkInfoCb`
(percentage → native linear unit → rounded percentage) recovers exactly the
clamped target — in particular it is within ±1 of it — and the recovered
percentage lies in [min, max]. -/
theorem changeVolumeAbs_roundtrip (volume min_volume max_volume : ℕ)
    (s : AudioBackend) (hr : s.ready = true) (hrange : min_volume ≤ max_volume)
    (hv16 : volume ≤ 65535) (hlo16 : min_volume ≤ 65535) (hhi16 : max_volume ≤ 65535) :
    ∃ cv, (changeVolumeAbs volume min_volume max_volume s).2 =
        [PaRequest.setSinkVolumeByIndex s.sink_idx_ cv] ∧
      min_volume ≤ sinkVolumePercent cv ∧ sinkVolumePercent cv ≤ max_volume ∧
      sinkVolumePercent cv = stdClamp volume min_volume max_volume := by
  obtain ⟨pv, heq, hpos⟩ := changeVolumeAbs_submits volume min_volume max_volume s hr
  have hcM : stdClamp volume min_volume max_volume ≤ 65535 :=
    stdClamp_le_bound _ _ _ _ hv16 hlo16 hhi16
  have hcb := stdClamp_bounds volume min_volume max_volume hrange
  have hpct : sinkVolumePercent (absUniform (doubleToUint32Trunc
      ((stdClamp volume min_volume max_volume : ℚ) * volumeTick)) pv) =
      stdClamp volume min_volume max_volume :=
    sinkVolumePercent_uniform_conv _ _ hcM hpos fun i hi => absUniform_values _ _ _ hi
  exact ⟨_, by rw [heq], by rw [hpct]; exact hcb.1, by rw [hpct]; exact hcb.2, hpct⟩

/-- C6 witness: target 30 in [20, 100] on the ready sample state. -/
theorem changeVolumeAbs_roundtrip_w :
    ∃ cv, (changeVolumeAbs 30 20 100 readyState).2 =
        [PaRequest.setSinkVolumeByIndex readyState.sink_idx_ cv] ∧
      20 ≤ sinkVolumePercent cv ∧ sinkVolumePercent cv ≤ 100 ∧
      sinkVolumePercent cv = stdClamp 30 20 100 :=
  changeVolumeAbs_roundtrip 30 20 100 readyState rfl (by decide) (by decide)
    (by decide) (by decide)

/-- C2: with the connection ready and a valid last-known channel-volume
structure, the relative step submits nothing exactly when an Increase is
requested with the current percentage at or above the clamped max
(`std::min(max_volume, (uint16_t)PA_VOLUME_UI_MAX)`) or a Decrease is
requested at zero; when it does submit, an Increase caps every used channel
at `PA_VOLUME_MAX` (the server absolute maximum) and a Decrease never takes
any used channel below zero (each slot saturates at 0 and never exceeds its
previous value). -/
theorem changeVolumeRel_step_bounds (change_type : ChangeType) (step : ℚ)
    (max_volume : ℕ) (s : AudioBackend) (hr : s.ready = true)
    (hv : paCvolumeValid s.pa_volume_ ∧ paChannelsValid s.pa_volume_.channels) :
    ((changeVolumeRel change_type step max_volume s).2 = [] ↔
      (change_type = ChangeType.Increase ∧
        min max_volume PA_VOLUME_UI_MAX_U16 ≤ s.volume_) ∨
      (change_type = ChangeType.Decrease ∧ s.volume_ = 0)) ∧
    ∀ idx cv, (changeVolumeRel change_type step max_volume s).2 =
        [PaRequest.setSinkVolumeByIndex idx cv] →
      ∀ i, i < cv.channels →
        (change_type = ChangeType.Increase → cv.values i ≤ PA_VOLUME_MAX) ∧
        (change_type = ChangeType.Decrease →
          0 ≤ cv.values i ∧ cv.values i ≤ s.pa_volume_.values i) := by
  unfold changeVolumeRel
  rw [if_neg (by simp [hr]), if_pos hv]
  rcases change_type with _ | _
  · by_cases hlt : s.volume_ < min max_volume PA_VOLUME_UI_MAX_U16
    · rw [if_pos ⟨rfl, hlt⟩]
      constructor
      · constructor
        · intro h; exact absurd h (List.cons_ne_nil _ _)
        · rintro (⟨-, hge⟩ | ⟨hd, -⟩)
          · omega
          · exact ChangeType.noConfusion hd
      · intro idx cv hcv i hi
        obtain ⟨-, hcveq⟩ : s.sink_idx_ = idx ∧
            relIncrease step (min max_volume PA_VOLUME_UI_MAX_U16) s.volume_
              s.pa_volume_ = cv := by simpa using hcv
        subst hcveq
        refine ⟨fun _ => ?_, fun hd => ChangeType.noConfusion hd⟩
        simp only [relIncrease] at hi ⊢
        rw [if_pos hi]
        exact min_le_right _ _
    · rw [if_neg (fun h => hlt h.2),
        if_neg (fun h => ChangeType.noConfusion h.1)]
      refine ⟨⟨fun _ => Or.inl ⟨rfl, by omega⟩, fun _ => rfl⟩, ?_⟩
      intro idx cv hcv
      exact absurd hcv (List.cons_ne_nil _ _).symm
  · rw [if_neg (fun h => ChangeType.noConfusion h.1)]
    by_cases hpos : 0 < s.volume_
    · rw [if_pos ⟨rfl, hpos⟩]
      constructor
      · constructor
        · intro h; exact absurd h (List.cons_ne_nil _ _)
        · rintro (⟨hd, -⟩ | ⟨-, hz⟩)
          · exact ChangeType.noConfusion hd
          · omega
      · intro idx cv hcv i hi
        obtain ⟨-, hcveq⟩ : s.sink_idx_ = idx ∧
            relDecrease step s.volume_ s.pa_volume_ = cv := by simpa using hcv
        subst hcveq
        refine ⟨fun hd => ChangeType.noConfusion hd, fun _ => ?_⟩
        simp only [relDecrease] at hi ⊢
        rw [if_pos hi]
        refine ⟨Nat.zero_le _, ?_⟩
        split_ifs <;> omega
    · rw [if_neg (fun h => hpos h.2)]
      refine ⟨⟨fun _ => Or.inr ⟨rfl, by omega⟩, fun _ => rfl⟩, ?_⟩
      intro idx cv hcv
      exact absurd hcv (List.cons_ne_nil _ _).symm

/-- C2 witness: an Increase of 5 with max 100 on the ready sample state
(volume 50, valid stereo structure) is not the boundary case. -/
theorem changeVolumeRel_step_bounds_w :
    (changeVolumeRel ChangeType.Increase 5 100 readyState).2 = [] ↔
      (ChangeType.Increase = ChangeType.Increase ∧
        min 100 PA_VOLUME_UI_MAX_U16 ≤ readyState.volume_) ∨
      (ChangeType.Increase = ChangeType.Decrease ∧ readyState.volume_ = 0) :=
  (changeVolumeRel_step_bounds ChangeType.Increase 5 100 readyState rfl
    (by decide)).1

end WaybarAudio
